import Mathlib

/-!
Shallow embedding of the reconciliation engine of
`advanced_sunbeam_openstack/charm.py` (class `OSBaseOperatorCharm`) and of
the relation library `lib/charms/sunbeam_mysql_k8s/v0/shared_db.py`
(class `SharedDBRequires`), with theorems settling the specification
claims about them.
-/

namespace AdvancedSunbeamOpenstack

/-- A relation handler as the engine sees it: its relation name and its
`ready` signal (`RelationHandler.ready`, an externally-observed value). -/
structure RelationHandler where
  relation_name : String
  ready : Bool
deriving DecidableEq, Repr

/-- A pebble (service process) handler as the engine sees it:
`pebble_ready` (runtime endpoint reachable) and `service_ready`. -/
structure PebbleHandler where
  container_name : String
  pebble_ready : Bool
  service_ready : Bool
deriving DecidableEq, Repr

/-- The externally-determined inputs of one `configure_charm` pass:
the charm metadata's declared relation names (`self.meta.relations.keys()`),
the relation handler list, the pebble handler list, the names of the
charm's config contexts, and whether the `_do_bootstrap` hook (abstract,
overridden by concrete charms) would succeed if invoked. The engine never
mutates any of these. -/
structure ExternalEnv where
  meta_relations : List String
  relation_handlers : List RelationHandler
  pebble_handlers : List PebbleHandler
  config_context_names : List String
  bootstrap_hook_ok : Bool
deriving DecidableEq, Repr

/-- Unit status as far as the engine sets it: `configure_charm` only ever
assigns `ops.model.ActiveStatus()`; anything else is `other`. -/
inductive UnitStatus where
  | other
  | active
deriving DecidableEq, Repr

/-- The engine-owned state that survives across passes: the stored
`bootstrapped` flag and the unit status. -/
structure EngineState where
  bootstrapped : Bool
  status : UnitStatus
deriving DecidableEq, Repr

/-- `__init__` runs `self._state.set_default(bootstrapped=False)`: at engine
creation the flag is false and no status has been set by the engine. -/
def initEngineState : EngineState := ⟨false, UnitStatus.other⟩

/-- `OSBaseOperatorCharm.can_add_handler` (charm.py lines 62-73): a handler
may be added only if the relation name is declared in the charm metadata
and no handler for that name is already present. -/
def can_add_handler (meta_relations : List String) (relation_name : String)
    (handlers : List RelationHandler) : Bool :=
  if relation_name ∉ meta_relations then false
  else if relation_name ∈ handlers.map (fun h => h.relation_name) then false
  else true

/-- One guarded construction step of `get_relation_handlers`: append a newly
constructed handler for `relation_name` when `can_add_handler` allows it.
`readyOf` supplies the externally-determined readiness of the constructed
handler. -/
def addHandler (meta_relations : List String) (readyOf : String → Bool)
    (handlers : List RelationHandler) (relation_name : String) :
    List RelationHandler :=
  if can_add_handler meta_relations relation_name handlers then
    handlers ++ [⟨relation_name, readyOf relation_name⟩]
  else handlers

/-- `OSBaseOperatorCharm.get_relation_handlers` (charm.py lines 75-115):
tries, in order, the candidate relation names amqp, `<service>-db`,
shared-db, ingress, peers, appending a handler for each that
`can_add_handler` admits. -/
def get_relation_handlers (meta_relations : List String) (service_name : String)
    (readyOf : String → Bool) (handlers : List RelationHandler) :
    List RelationHandler :=
  let handlers := addHandler meta_relations readyOf handlers "amqp"
  let handlers := addHandler meta_relations readyOf handlers (service_name ++ "-db")
  let handlers := addHandler meta_relations readyOf handlers "shared-db"
  let handlers := addHandler meta_relations readyOf handlers "ingress"
  let handlers := addHandler meta_relations readyOf handlers "peers"
  handlers

/-- `OSBaseOperatorCharm.relation_handlers_ready` (charm.py lines 188-194):
all relation handlers report ready. -/
def relation_handlers_ready (env : ExternalEnv) : Bool :=
  env.relation_handlers.all (fun h => h.ready)

/-- `OSBaseOperatorCharm.containers_ready` (charm.py lines 180-186):
all pebble handlers report `service_ready`. -/
def containers_ready (env : ExternalEnv) : Bool :=
  env.pebble_handlers.all (fun ph => ph.service_ready)

/-- The render context built by `OSBaseOperatorCharm.contexts`: the relation
handlers that were kept, plus the charm's config contexts. -/
structure OPSCharmContexts where
  rel_handlers : List RelationHandler
  config_context_names : List String
deriving DecidableEq, Repr

/-- `OSBaseOperatorCharm.contexts` (charm.py lines 196-208): for each
relation handler, skip it when its relation name is not in the charm
metadata (`continue`), otherwise add it when it is ready; then add the
config contexts. -/
def contexts (env : ExternalEnv) : OPSCharmContexts :=
  ⟨env.relation_handlers.filter
      (fun h => decide (h.relation_name ∈ env.meta_relations) && h.ready),
   env.config_context_names⟩

/-- Externally visible calls made during a `configure_charm` pass:
`ph.init_service(self.contexts())` on a pebble handler, the
`self._do_bootstrap()` hook invocation, and `self.unit.status = ActiveStatus()`. -/
inductive Effect where
  | init_service (ctx : OPSCharmContexts)
  | do_bootstrap
  | set_status_active
deriving DecidableEq, Repr

/-- Whether an effect is an `init_service` call. -/
def Effect.isInit : Effect → Bool
  | Effect.init_service _ => true
  | _ => false

/-- The `init_service` calls issued once the dependency gate has passed:
one call per pebble handler with `pebble_ready`, each receiving the context
built by `contexts` (charm.py lines 135-137). -/
def init_effects (env : ExternalEnv) : List Effect :=
  (env.pebble_handlers.filter (fun ph => ph.pebble_ready)).map
    (fun _ => Effect.init_service (contexts env))

/-- Outcome of one `configure_charm` pass: the engine state afterwards, the
external calls made during the pass in order, and whether the pass ended by
an uncaught exception from the bootstrap hook. -/
structure PassResult where
  state : EngineState
  effects : List Effect
  raised : Bool
deriving DecidableEq, Repr

/-- `OSBaseOperatorCharm.configure_charm` (charm.py lines 129-148):
dependency gate (`relation_handlers_ready`), then `init_service` on each
pebble-ready handler, then the process gate (every handler `service_ready`),
then `_do_bootstrap` when not yet bootstrapped (its exception, if any,
propagates uncaught), then status active and `bootstrapped = True`. -/
def configure_charm (env : ExternalEnv) (st : EngineState) : PassResult :=
  if relation_handlers_ready env then
    let inits := init_effects env
    if env.pebble_handlers.all (fun ph => ph.service_ready) then
      if st.bootstrapped then
        ⟨⟨true, UnitStatus.active⟩, inits ++ [Effect.set_status_active], false⟩
      else if env.bootstrap_hook_ok then
        ⟨⟨true, UnitStatus.active⟩,
         inits ++ [Effect.do_bootstrap, Effect.set_status_active], false⟩
      else
        ⟨st, inits ++ [Effect.do_bootstrap], true⟩
    else ⟨st, inits, false⟩
  else ⟨st, [], false⟩

/-- A sequence of `configure_charm` passes: the environment may change
arbitrarily between passes (relations joining, containers coming up), the
engine state is threaded through. Returns the final state and the per-pass
results in order. -/
def runSeq (st : EngineState) : List ExternalEnv → EngineState × List PassResult
  | [] => (st, [])
  | env :: envs =>
    let r := configure_charm env st
    let rest := runSeq r.state envs
    (rest.1, r :: rest.2)

/-- A sample environment in which every gate passes and the bootstrap hook
succeeds. -/
def envConverge : ExternalEnv :=
  ⟨["amqp"], [⟨"amqp", true⟩], [⟨"svc", true, true⟩], ["options"], true⟩

/-- A sample environment with a declared but not yet ready amqp relation. -/
def envDepNotReady : ExternalEnv :=
  ⟨["amqp", "peers"], [⟨"amqp", false⟩, ⟨"peers", true⟩],
   [⟨"svc", true, true⟩], ["options"], true⟩

/-- A sample environment in which both gates pass but the bootstrap hook
raises. -/
def envHookFails : ExternalEnv :=
  ⟨["amqp"], [⟨"amqp", true⟩], [⟨"svc", true, true⟩], ["options"], false⟩

/-- A sample environment with one pebble-ready container and one container
that is neither pebble-ready nor service-ready. -/
def envPebbleMixed : ExternalEnv :=
  ⟨["amqp"], [⟨"amqp", true⟩],
   [⟨"svc-a", true, true⟩, ⟨"svc-b", false, false⟩], ["options"], true⟩

/-- A sample environment holding a ready handler for a relation (amqp) that
is no longer declared in the charm metadata. -/
def envStaleHandler : ExternalEnv :=
  ⟨["peers"], [⟨"amqp", true⟩, ⟨"peers", true⟩], [], ["options"], true⟩

/-- Shared peer data: a key to string mapping carried by the peer relation. -/
abbrev PeerData := List (String × String)

/-- Look up a key in peer data. -/
def PeerData.lookup (data : PeerData) (key : String) : Option String :=
  (List.find? (fun kv => kv.1 == key) data).map (fun kv => kv.2)

/-- Modelled from the spec: `BasePeerHandler.set_app_data` lives in
`advanced_sunbeam_openstack/relation_handlers.py`, which is not among the
source files. The spec says only the elected leader instance may write
shared peer data; a non-leader write is rejected/no-op. -/
def set_app_data (is_leader : Bool) (data : PeerData) (key value : String) :
    PeerData :=
  if is_leader then
    (key, value) :: List.filter (fun kv => kv.1 != key) data
  else data

/-- Modelled from the spec: `BasePeerHandler.get_app_data` lives in
`advanced_sunbeam_openstack/relation_handlers.py`, which is not among the
source files. The spec says all instances may read shared peer data. -/
def get_app_data (data : PeerData) (key : String) : Option String :=
  PeerData.lookup data key

/-- `OSBaseOperatorCharm.leader_set` (charm.py lines 222-224): delegates to
`self.peers.set_app_data(key, value)`. -/
def leader_set (is_leader : Bool) (data : PeerData) (key value : String) :
    PeerData :=
  set_app_data is_leader data key value

/-- `OSBaseOperatorCharm.leader_get` (charm.py lines 226-228): delegates to
`self.peers.get_app_data(key)`. -/
def leader_get (data : PeerData) (key : String) : Option String :=
  get_app_data data key

end AdvancedSunbeamOpenstack

namespace SharedDB

/-- A write to the relation application databag, as performed by
`SharedDBRequires.request_access`: `data[app]["databases"] = json.dumps(databases)`. -/
structure RelationDataWrite where
  key : String
  databases : List String
deriving DecidableEq, Repr

/-- Events a `SharedDBRequires` instance can emit. -/
inductive DBEvent where
  | connected
  | ready
  | goneaway
deriving DecidableEq, Repr

/-- Python errors the handlers can raise. -/
inductive PyError where
  | attributeError (name : String)
  | typeError (callee : String)
deriving DecidableEq, Repr

/-- Instance attribute names bound by `SharedDBRequires.__init__`
(shared_db.py lines 59-63): `self.charm`, `self.relation_name`,
`self.databases`. -/
def instanceAttrs : List String := ["charm", "relation_name", "databases"]

/-- Names bound in the class body of `SharedDBRequires`, in source order,
each paired with the line of its binding. The name
`_on_database_relation_joined` is bound twice (lines 86 and 90). -/
def classBody : List (String × Nat) :=
  [("on", 56), ("_stored", 57), ("__init__", 59), ("_db_rel", 81),
   ("_on_database_relation_joined", 86), ("_on_database_relation_joined", 90),
   ("_on_database_relation_changed", 96), ("_on_database_relation_broken", 102),
   ("request_access", 107)]

/-- Python class-body semantics: bindings execute top to bottom into the
class dict, so a later binding of a name shadows an earlier one. Resolves a
name to the line of its effective binding. -/
def resolveClassAttr (name : String) : Option Nat :=
  classBody.foldl (fun acc kv => if kv.1 == name then some kv.2 else acc) none

/-- Whether attribute lookup on a `SharedDBRequires` instance succeeds:
the name is an instance attribute set by `__init__` or a class attribute. -/
def hasAttr (name : String) : Bool :=
  instanceAttrs.contains name || (resolveClassAttr name).isSome

/-- Attribute access `self.<name>`: raises `AttributeError` when the name is
bound neither on the instance nor on the class. -/
def getSelfAttr (name : String) : Except PyError Unit :=
  if hasAttr name then Except.ok () else Except.error (PyError.attributeError name)

/-- The event observation table set up by `SharedDBRequires.__init__`
(shared_db.py lines 64-79): which bound method handles each relation event. -/
def observers : List (String × String) :=
  [("relation_joined", "_on_database_relation_joined"),
   ("relation_changed", "_on_database_relation_changed"),
   ("relation_departed", "_on_database_relation_changed"),
   ("relation_broken", "_on_database_relation_broken")]

/-- Number of parameters of `SharedDBRequires.request_access` besides
`self` (shared_db.py line 107: `def request_access(self, databases: list)`). -/
def request_access_arg_count : Nat := 1

/-- Number of positional arguments passed at the call site in the effective
joined handler (shared_db.py line 94:
`self.request_access(self.username, self.databases)`). -/
def joined_call_arg_count : Nat := 2

/-- `SharedDBRequires.request_access` (shared_db.py lines 107-111): when the
unit is leader, write the json-encoded database list under key
`databases` into the relation application databag; otherwise do nothing. -/
def request_access (is_leader : Bool) (databases : List String) :
    Option RelationDataWrite :=
  if is_leader then some ⟨"databases", databases⟩ else none

/-- Outcome of running one event handler: events emitted before any error,
the relation databag write if one happened, and the raised error if any. -/
structure HandlerResult where
  emitted : List DBEvent
  write : Option RelationDataWrite
  error : Option PyError
deriving DecidableEq, Repr

/-- The effective `_on_database_relation_joined` (the second definition,
shared_db.py lines 90-94): emits `connected`, then evaluates
`self.username` (Python evaluates call arguments before the call), then
would call `request_access` with two positional arguments against its
one-parameter signature. -/
def on_database_relation_joined (is_leader : Bool) (databases : List String) :
    HandlerResult :=
  let emitted := [DBEvent.connected]
  match getSelfAttr "username" with
  | Except.error e => ⟨emitted, none, some e⟩
  | Except.ok _ =>
    if joined_call_arg_count = request_access_arg_count then
      ⟨emitted, request_access is_leader databases, none⟩
    else ⟨emitted, none, some (PyError.typeError "request_access")⟩

/-- `_on_database_relation_changed` (shared_db.py lines 96-100): evaluates
`self.password`; were that attribute present, its truthiness would decide
whether `ready` is emitted. -/
def on_database_relation_changed (password_truthy : Bool) : HandlerResult :=
  match getSelfAttr "password" with
  | Except.error e => ⟨[], none, some e⟩
  | Except.ok _ =>
    if password_truthy then ⟨[DBEvent.ready], none, none⟩
    else ⟨[], none, none⟩

/-- `_on_database_relation_broken` (shared_db.py lines 102-105): emits
`goneaway`. -/
def on_database_relation_broken : HandlerResult :=
  ⟨[DBEvent.goneaway], none, none⟩

end SharedDB

namespace AdvancedSunbeamOpenstack

/-- Every effect issued by the process-initialization loop is an
`init_service` call carrying the pass's render context. -/
theorem mem_init_effects {env : ExternalEnv} {e : Effect}
    (h : e ∈ init_effects env) : e = Effect.init_service (contexts env) := by
  simp only [init_effects, List.mem_map] at h
  obtain ⟨ph, _, rfl⟩ := h
  rfl

/-- The bootstrap hook is never invoked inside the process-initialization
loop. -/
theorem do_bootstrap_not_mem_init_effects (env : ExternalEnv) :
    Effect.do_bootstrap ∉ init_effects env := by
  intro h
  exact absurd (mem_init_effects h) (by simp)

/-- The status is never set inside the process-initialization loop. -/
theorem set_status_not_mem_init_effects (env : ExternalEnv) :
    Effect.set_status_active ∉ init_effects env := by
  intro h
  exact absurd (mem_init_effects h) (by simp)

/-- The process-initialization effects all pass the `isInit` filter. -/
theorem init_effects_filter (env : ExternalEnv) :
    (init_effects env).filter Effect.isInit = init_effects env := by
  rw [List.filter_eq_self]
  intro e he
  rw [mem_init_effects he]
  rfl

/-- Once the stored flag is true, a pass never clears it. -/
theorem configure_charm_mono (env : ExternalEnv) (st : EngineState)
    (h : st.bootstrapped = true) :
    (configure_charm env st).state.bootstrapped = true := by
  unfold configure_charm
  by_cases h1 : relation_handlers_ready env <;>
    by_cases h2 : env.pebble_handlers.all (fun ph => ph.service_ready) <;>
      simp [h1, h2, h]

/-- Once the stored flag is true, a pass never invokes the bootstrap hook. -/
theorem configure_charm_no_rebootstrap (env : ExternalEnv) (st : EngineState)
    (h : st.bootstrapped = true) :
    Effect.do_bootstrap ∉ (configure_charm env st).effects := by
  unfold configure_charm
  by_cases h1 : relation_handlers_ready env <;>
    by_cases h2 : env.pebble_handlers.all (fun ph => ph.service_ready) <;>
      simp [h1, h2, h, do_bootstrap_not_mem_init_effects]

/-- A pass that invoked the bootstrap hook and did not raise ends with the
stored flag true. -/
theorem configure_charm_bootstrap_success (env : ExternalEnv) (st : EngineState)
    (hr : (configure_charm env st).raised = false)
    (hb : Effect.do_bootstrap ∈ (configure_charm env st).effects) :
    (configure_charm env st).state.bootstrapped = true := by
  unfold configure_charm at hr hb ⊢
  by_cases h1 : relation_handlers_ready env <;>
    by_cases h2 : env.pebble_handlers.all (fun ph => ph.service_ready) <;>
      by_cases h3 : st.bootstrapped <;>
        by_cases h4 : env.bootstrap_hook_ok <;>
          simp_all [do_bootstrap_not_mem_init_effects]

/-- Starting from a state with the flag true, no pass of a run ever invokes
the bootstrap hook. -/
theorem runSeq_no_rebootstrap (envs : List ExternalEnv) (st : EngineState)
    (h : st.bootstrapped = true) :
    ∀ r ∈ (runSeq st envs).2, Effect.do_bootstrap ∉ r.effects := by
  induction envs generalizing st with
  | nil => simp [runSeq]
  | cons env envs ih =>
    intro r hr
    simp only [runSeq, List.mem_cons] at hr
    rcases hr with rfl | hr
    · exact configure_charm_no_rebootstrap env st h
    · exact ih (configure_charm env st).state (configure_charm_mono env st h) r hr

/-- A successful `can_add_handler` implies the name is declared in the
charm metadata. -/
theorem can_add_handler_mem_meta {meta : List String} {n : String}
    {hs : List RelationHandler} (hc : can_add_handler meta n hs = true) :
    n ∈ meta := by
  by_contra hn
  simp [can_add_handler, hn] at hc

/-- `addHandler` never introduces a handler for a name absent from the
charm metadata. -/
theorem addHandler_not_constructed {meta : List String} {R : String}
    {readyOf : String → Bool} {hs : List RelationHandler} {n : String}
    (hR : R ∉ meta) (h : R ∉ hs.map (fun hd => hd.relation_name)) :
    R ∉ (addHandler meta readyOf hs n).map (fun hd => hd.relation_name) := by
  unfold addHandler
  split
  case isTrue hc =>
    simp only [List.map_append, List.map_cons, List.map_nil, List.mem_append,
      List.mem_singleton]
    rintro (hin | rfl)
    · exact h hin
    · exact hR (can_add_handler_mem_meta hc)
  case isFalse _ => exact h

/-- C1: in a pass where some relation handler is not ready, `configure_charm`
aborts at the dependency gate: no `init_service` call, no state mutation,
the `bootstrapped` flag keeps its value, and the status is never set
active. -/
theorem dependency_gate_aborts_pass (env : ExternalEnv) (st : EngineState)
    (h : ∃ rh ∈ env.relation_handlers, rh.ready = false) :
    configure_charm env st = ⟨st, [], false⟩ ∧
    (∀ c, Effect.init_service c ∉ (configure_charm env st).effects) ∧
    (configure_charm env st).state = st ∧
    (configure_charm env st).state.bootstrapped = st.bootstrapped ∧
    Effect.set_status_active ∉ (configure_charm env st).effects := by
  have hready : relation_handlers_ready env = false := by
    obtain ⟨rh, hmem, hrdy⟩ := h
    rw [Bool.eq_false_iff]
    intro hall
    rw [relation_handlers_ready, List.all_eq_true] at hall
    exact absurd (hall rh hmem) (by simp [hrdy])
  have heq : configure_charm env st = ⟨st, [], false⟩ := by
    simp [configure_charm, hready]
  refine ⟨heq, ?_, ?_, ?_, ?_⟩ <;> rw [heq] <;> simp

/-- Witness for C1 at a concrete environment with an unready amqp handler. -/
theorem dependency_gate_aborts_pass_witness :
    configure_charm envDepNotReady initEngineState =
      ⟨initEngineState, [], false⟩ :=
  (dependency_gate_aborts_pass envDepNotReady initEngineState
    ⟨⟨"amqp", false⟩, by constructor, rfl⟩).1

/-- C3: when both gates pass, the flag is false and the bootstrap hook
raises, the exception propagates uncaught, the engine state is unchanged
(`bootstrapped` stays false) and the status is not set active. -/
theorem bootstrap_failure_propagates (env : ExternalEnv) (st : EngineState)
    (hr : relation_handlers_ready env = true)
    (hp : env.pebble_handlers.all (fun ph => ph.service_ready) = true)
    (hb : st.bootstrapped = false)
    (hook : env.bootstrap_hook_ok = false) :
    (configure_charm env st).raised = true ∧
    Effect.do_bootstrap ∈ (configure_charm env st).effects ∧
    (configure_charm env st).state = st ∧
    (configure_charm env st).state.bootstrapped = false ∧
    Effect.set_status_active ∉ (configure_charm env st).effects := by
  unfold configure_charm
  simp [hr, hp, hb, hook, set_status_not_mem_init_effects]

/-- Witness for C3 at a concrete environment whose bootstrap hook fails. -/
theorem bootstrap_failure_propagates_witness :
    (configure_charm envHookFails initEngineState).raised = true ∧
    (configure_charm envHookFails initEngineState).state = initEngineState :=
  ⟨(bootstrap_failure_propagates envHookFails initEngineState rfl rfl rfl
      rfl).1,
   (bootstrap_failure_propagates envHookFails initEngineState rfl rfl rfl
      rfl).2.2.1⟩

/-- C4: a relation name R absent from the charm metadata is never admitted
by `can_add_handler`, never appears among the constructed handlers of
`get_relation_handlers`, and any handler named R is dropped by `contexts`
even when it reports ready. -/
theorem manifest_filtering (env : ExternalEnv) (R : String)
    (handlers : List RelationHandler) (service_name : String)
    (readyOf : String → Bool)
    (hR : R ∉ env.meta_relations)
    (hstart : R ∉ handlers.map (fun hd => hd.relation_name)) :
    can_add_handler env.meta_relations R handlers = false ∧
    R ∉ (get_relation_handlers env.meta_relations service_name readyOf
        handlers).map (fun hd => hd.relation_name) ∧
    ∀ hd ∈ (contexts env).rel_handlers, hd.relation_name ≠ R := by
  refine ⟨?_, ?_, ?_⟩
  · simp [can_add_handler, hR]
  · unfold get_relation_handlers
    exact addHandler_not_constructed hR (addHandler_not_constructed hR
      (addHandler_not_constructed hR (addHandler_not_constructed hR
        (addHandler_not_constructed hR hstart))))
  · intro hd hmem heq
    simp only [contexts, List.mem_filter, Bool.and_eq_true,
      decide_eq_true_eq] at hmem
    exact hR (heq ▸ hmem.2.1)

/-- Witness for C4: amqp is not declared in `envStaleHandler`, so it can
never be added, is never constructed, and its ready handler is dropped from
the render context. -/
theorem manifest_filtering_witness :
    can_add_handler envStaleHandler.meta_relations "amqp" [] = false ∧
    "amqp" ∉ (get_relation_handlers envStaleHandler.meta_relations "svc"
        (fun _ => true) []).map (fun hd => hd.relation_name) :=
  ⟨(manifest_filtering envStaleHandler "amqp" [] "svc" (fun _ => true)
      (by decide) (by simp)).1,
   (manifest_filtering envStaleHandler "amqp" [] "svc" (fun _ => true)
      (by decide) (by simp)).2.1⟩

/-- C5: once the dependency gate passes, the `init_service` calls of the
pass are exactly one per pebble-ready handler, each with the pass's render
context; and if some handler is not `service_ready`, the pass then aborts
before bootstrap and finalize, leaving the state unchanged. -/
theorem init_service_exactly_pebble_ready (env : ExternalEnv)
    (st : EngineState)
    (hr : relation_handlers_ready env = true) :
    (configure_charm env st).effects.filter Effect.isInit =
      (env.pebble_handlers.filter (fun ph => ph.pebble_ready)).map
        (fun _ => Effect.init_service (contexts env)) ∧
    (env.pebble_handlers.all (fun ph => ph.service_ready) = false →
      (configure_charm env st).state = st ∧
      Effect.do_bootstrap ∉ (configure_charm env st).effects ∧
      Effect.set_status_active ∉ (configure_charm env st).effects) := by
  constructor
  · show (configure_charm env st).effects.filter Effect.isInit =
      init_effects env
    unfold configure_charm
    by_cases h2 : env.pebble_handlers.all (fun ph => ph.service_ready) <;>
      by_cases h3 : st.bootstrapped <;>
        by_cases h4 : env.bootstrap_hook_ok <;>
          simp [hr, h2, h3, h4, List.filter_append, init_effects_filter,
            Effect.isInit]
  · intro h2
    unfold configure_charm
    simp [hr, h2, do_bootstrap_not_mem_init_effects,
      set_status_not_mem_init_effects]

/-- Witness for C5 at a concrete environment with one pebble-ready and one
unready container. -/
theorem init_service_exactly_pebble_ready_witness :
    (configure_charm envPebbleMixed initEngineState).effects.filter
        Effect.isInit =
      (envPebbleMixed.pebble_handlers.filter
          (fun ph => ph.pebble_ready)).map
        (fun _ => Effect.init_service (contexts envPebbleMixed)) ∧
    (configure_charm envPebbleMixed initEngineState).state =
      initEngineState :=
  ⟨(init_service_exactly_pebble_ready envPebbleMixed initEngineState
      rfl).1,
   ((init_service_exactly_pebble_ready envPebbleMixed initEngineState
      rfl).2 rfl).1⟩

/-- C2: across any sequence of `configure_charm` passes, once pass `i`
invokes the bootstrap hook and completes without raising (which sets the
stored flag), no later pass `j` ever invokes the hook again. -/
theorem bootstrap_at_most_once (st : EngineState) (envs : List ExternalEnv)
    (i j : Nat)
    (hi : i < ((runSeq st envs).2).length)
    (hj : j < ((runSeq st envs).2).length)
    (hij : i < j)
    (hsucc : (((runSeq st envs).2).get ⟨i, hi⟩).raised = false)
    (hboot : Effect.do_bootstrap ∈ (((runSeq st envs).2).get ⟨i, hi⟩).effects) :
    Effect.do_bootstrap ∉ (((runSeq st envs).2).get ⟨j, hj⟩).effects := by
  induction envs generalizing st i j with
  | nil => simp [runSeq] at hi
  | cons env envs ih =>
    simp only [runSeq] at hi hj hsucc hboot ⊢
    cases i with
    | zero =>
      cases j with
      | zero => exact absurd hij (by omega)
      | succ j =>
        simp only [List.length_cons] at hj
        have hflag : (configure_charm env st).state.bootstrapped = true :=
          configure_charm_bootstrap_success env st hsucc hboot
        have hmem :
            ((runSeq (configure_charm env st).state envs).2).get
              ⟨j, by omega⟩ ∈ (runSeq (configure_charm env st).state envs).2 :=
          List.get_mem _ _ _
        have hnb := runSeq_no_rebootstrap envs (configure_charm env st).state
          hflag _ hmem
        simpa [List.get_cons_succ] using hnb
    | succ i =>
      cases j with
      | zero => exact absurd hij (by omega)
      | succ j =>
        simp only [List.length_cons] at hi hj
        simp only [List.get_cons_succ] at hsucc hboot ⊢
        exact ih (configure_charm env st).state i j (by omega) (by omega)
          (by omega) hsucc hboot

/-- Witness for C2: two converging passes in a row; the second never
invokes the hook. -/
theorem bootstrap_at_most_once_witness :
    Effect.do_bootstrap ∉
      (((runSeq initEngineState [envConverge, envConverge]).2).get
        ⟨1, by decide⟩).effects :=
  bootstrap_at_most_once initEngineState [envConverge, envConverge] 0 1
    (by decide) (by decide) (by decide) (by decide) (by decide)

/-- C6: once a pass converges (it set the status active), a repeat pass in
an unchanged environment changes nothing: same engine state, status stays
active, flag stays true, no raise, no re-bootstrap, and the repeated
`init_service` calls carry the identical rendered context. -/
theorem configure_charm_idempotent (env : ExternalEnv) (st : EngineState)
    (h : Effect.set_status_active ∈ (configure_charm env st).effects) :
    (configure_charm env (configure_charm env st).state).state =
      (configure_charm env st).state ∧
    (configure_charm env st).state.status = UnitStatus.active ∧
    (configure_charm env st).state.bootstrapped = true ∧
    (configure_charm env (configure_charm env st).state).raised = false ∧
    (configure_charm env (configure_charm env st).state).effects.filter
        Effect.isInit =
      (configure_charm env st).effects.filter Effect.isInit ∧
    Effect.do_bootstrap ∉
      (configure_charm env (configure_charm env st).state).effects := by
  by_cases h1 : relation_handlers_ready env
  · by_cases h2 : env.pebble_handlers.all (fun ph => ph.service_ready)
    · by_cases h3 : st.bootstrapped
      · simp [configure_charm, h1, h2, h3, List.filter_append,
          init_effects_filter, Effect.isInit, do_bootstrap_not_mem_init_effects]
      · by_cases h4 : env.bootstrap_hook_ok
        · simp [configure_charm, h1, h2, h3, h4, List.filter_append,
            init_effects_filter, Effect.isInit,
            do_bootstrap_not_mem_init_effects]
        · simp [configure_charm, h1, h2, h3, h4,
            set_status_not_mem_init_effects] at h
    · simp [configure_charm, h1, h2, set_status_not_mem_init_effects] at h
  · simp [configure_charm, h1] at h

/-- Witness for C6 at a concrete converging environment. -/
theorem configure_charm_idempotent_witness :
    (configure_charm envConverge
        (configure_charm envConverge initEngineState).state).state =
      (configure_charm envConverge initEngineState).state ∧
    Effect.do_bootstrap ∉
      (configure_charm envConverge
        (configure_charm envConverge initEngineState).state).effects :=
  ⟨(configure_charm_idempotent envConverge initEngineState (by decide)).1,
   (configure_charm_idempotent envConverge initEngineState
      (by decide)).2.2.2.2.2⟩

/-- C7: the stored `bootstrapped` flag starts false at engine creation, is
never reset by any pass, and, from false, becomes true in a pass exactly
when both gates pass and the bootstrap hook succeeds. -/
theorem bootstrapped_flag_lifecycle :
    initEngineState.bootstrapped = false ∧
    (∀ env st, st.bootstrapped = true →
      (configure_charm env st).state.bootstrapped = true) ∧
    (∀ env st, st.bootstrapped = false →
      ((configure_charm env st).state.bootstrapped = true ↔
        relation_handlers_ready env = true ∧
        env.pebble_handlers.all (fun ph => ph.service_ready) = true ∧
        env.bootstrap_hook_ok = true)) := by
  refine ⟨rfl, configure_charm_mono, ?_⟩
  intro env st hb
  unfold configure_charm
  by_cases h1 : relation_handlers_ready env <;>
    by_cases h2 : env.pebble_handlers.all (fun ph => ph.service_ready) <;>
      by_cases h4 : env.bootstrap_hook_ok <;>
        simp [h1, h2, h4, hb]

/-- Witness for C7: from the initial state, a converging pass sets the
flag. -/
theorem bootstrapped_flag_lifecycle_witness :
    (configure_charm envConverge initEngineState).state.bootstrapped =
      true :=
  (bootstrapped_flag_lifecycle.2.2 envConverge initEngineState rfl).mpr
    ⟨rfl, rfl, rfl⟩

/-- C8: a non-leader write of shared peer data (`leader_set`, and the
leader-gated databag write of `request_access`) is a no-op, reads
(`leader_get`) still succeed on every instance, and a leader's write takes
effect. -/
theorem peer_writes_leader_only (data : PeerData) (key value : String)
    (databases : List String) :
    leader_set false data key value = data ∧
    SharedDB.request_access false databases = none ∧
    leader_get data key = get_app_data data key ∧
    leader_get (leader_set true data key value) key = some value := by
  refine ⟨?_, ?_, rfl, ?_⟩
  · simp [leader_set, set_app_data]
  · simp [SharedDB.request_access]
  · simp [leader_set, set_app_data, leader_get, get_app_data,
      PeerData.lookup, List.find?]

end AdvancedSunbeamOpenstack

namespace SharedDB

/-- C9: in the class dict of `SharedDBRequires` the second definition of
`_on_database_relation_joined` (line 90) shadows the first (line 86); the
effective handler passes two positional arguments to `request_access`,
whose signature takes one, and reads `self.username`, an attribute the
class never defines — so it raises on every join and never writes the
databases request. -/
theorem shared_db_joined_handler_raises :
    ("_on_database_relation_joined", 86) ∈ classBody ∧
    resolveClassAttr "_on_database_relation_joined" = some 90 ∧
    hasAttr "username" = false ∧
    joined_call_arg_count ≠ request_access_arg_count ∧
    ∀ (is_leader : Bool) (databases : List String),
      (on_database_relation_joined is_leader databases).error =
        some (PyError.attributeError "username") ∧
      (on_database_relation_joined is_leader databases).write = none := by
  refine ⟨by decide, by decide, by decide, by decide, ?_⟩
  intro is_leader databases
  have h : hasAttr "username" = false := by decide
  simp [on_database_relation_joined, getSelfAttr, h]

/-- C10: both `relation_changed` and `relation_departed` are observed by
`_on_database_relation_changed`, which evaluates `self.password`, an
attribute defined nowhere in the class — so it raises on every such event
and `DatabaseReadyEvent` is never emitted through this path. -/
theorem shared_db_changed_handler_raises :
    List.lookup "relation_changed" observers =
      some "_on_database_relation_changed" ∧
    List.lookup "relation_departed" observers =
      some "_on_database_relation_changed" ∧
    hasAttr "password" = false ∧
    ∀ password_truthy : Bool,
      (on_database_relation_changed password_truthy).error =
        some (PyError.attributeError "password") ∧
      DBEvent.ready ∉ (on_database_relation_changed password_truthy).emitted := by
  refine ⟨by decide, by decide, by decide, ?_⟩
  intro password_truthy
  have h : hasAttr "password" = false := by decide
  simp [on_database_relation_changed, getSelfAttr, h]

end SharedDB
